import Mathlib

/-!
Shallow embedding of the Smart Dumb Appliance coordinator
(`custom_components/SmartDumbAppliance/coordinator.py`) and its
configuration validation (`config_flow.py`).

Modelling conventions:
* Python floats are modelled as rationals (`ℚ`); the coordinator performs
  only field arithmetic on its numeric values.
* `datetime` values are modelled as rationals counting seconds
  (`total_seconds`); `timedelta` values are rationals in seconds.
* A Home Assistant entity state is either missing (`hass.states.get`
  returned `None`), present but not parseable as a float, or a numeric
  reading.
* `_async_update_data` is modelled as a pure step function from the
  coordinator's mutable attributes and the tick's external inputs to the
  new attribute values plus either the published `ApplianceData` snapshot
  or an `UpdateFailed` error.  The host framework's assignment of the
  returned snapshot to `self.data` is folded into the step function.
-/

namespace SmartDumbAppliance

/-- Configuration data of one appliance (the fields of `config_entry.data`
read by the coordinator).  `cost_sensor` records whether a cost sensor is
configured at all. -/
structure Config where
  start_watts : ℚ
  stop_watts : ℚ
  cost_sensor : Bool
  service_reminder : Bool
  service_reminder_message : String
  service_reminder_count : ℚ
  deriving Repr, DecidableEq

/-- The state of an external numeric source entity at one tick. -/
inductive SourceState where
  | missing
  | unparseable
  | reading (value : ℚ)
  deriving Repr, DecidableEq

/-- External inputs consumed by one call of `_async_update_data`:
the power sensor state, the cost sensor state and `dt_util.utcnow()`
(in seconds). -/
structure TickInput where
  power : SourceState
  cost : SourceState
  now : ℚ
  deriving Repr, DecidableEq

/-- The `ApplianceData` snapshot dataclass published after an update. -/
structure ApplianceData where
  last_update : ℚ
  power_state : ℚ
  power_kw : ℚ
  is_running : Bool
  start_time : Option ℚ
  end_time : Option ℚ
  use_count : ℕ
  cycle_energy : ℚ
  previous_cycle_energy : ℚ
  total_energy : ℚ
  cycle_cost : ℚ
  previous_cycle_cost : ℚ
  total_cost : ℚ
  last_power : ℚ
  last_power_time : Option ℚ
  cycle_duration : Option ℚ
  last_cycle_duration : Option ℚ
  total_duration : ℚ
  service_status : String
  service_reminder_enabled : Bool
  service_reminder_message : String
  service_reminder_count : ℚ
  remaining_cycles : ℚ
  deriving Repr, DecidableEq

/-- The mutable attributes of `SmartDumbApplianceCoordinator`
(`self._start_time`, `self._use_count`, ..., `self.data`). -/
structure CoordState where
  start_time : Option ℚ
  end_time : Option ℚ
  use_count : ℕ
  cycle_energy : ℚ
  previous_cycle_energy : ℚ
  total_energy : ℚ
  cycle_cost : ℚ
  previous_cycle_cost : ℚ
  total_cost : ℚ
  was_on : Bool
  last_power : ℚ
  last_power_time : Option ℚ
  last_cycle_end_time : Option ℚ
  last_cycle_duration : Option ℚ
  total_duration : ℚ
  data : Option ApplianceData
  deriving Repr, DecidableEq

/-- The attribute values set in `__init__` (and restored by
`async_shutdown`). -/
def initState : CoordState where
  start_time := none
  end_time := none
  use_count := 0
  cycle_energy := 0
  previous_cycle_energy := 0
  total_energy := 0
  cycle_cost := 0
  previous_cycle_cost := 0
  total_cost := 0
  was_on := false
  last_power := 0
  last_power_time := none
  last_cycle_end_time := none
  last_cycle_duration := none
  total_duration := 0
  data := none

/-- The running/not-running decision of `_async_update_data` (line 241):
`is_on = current_power > self._start_watts or
(self._was_on and current_power > self._stop_watts)`. -/
def classify (current_power : ℚ) (was_on : Bool) (start_watts stop_watts : ℚ) : Bool :=
  decide (start_watts < current_power) || (was_on && decide (stop_watts < current_power))

/-- `_calculate_interval_energy`: trapezoidal integration of the interval
since the previous reading, updating `self._last_power` and
`self._last_power_time`.  Returns the interval energy in kWh together
with the updated state. -/
def calculateIntervalEnergy (s : CoordState) (current_power current_time : ℚ) :
    ℚ × CoordState :=
  match s.last_power_time with
  | none =>
      (0, { s with last_power := current_power, last_power_time := some current_time })
  | some lastTime =>
      let time_diff := (current_time - lastTime) / 3600
      let interval_energy := (s.last_power + current_power) * time_diff / (2 * 1000)
      (interval_energy,
        { s with last_power := current_power, last_power_time := some current_time })

/-- `_get_current_cost_rate`: `None` when no cost sensor is configured,
when the sensor is missing, or when its state does not parse as a float;
otherwise the parsed rate. -/
def getCurrentCostRate (cfg : Config) (cost : SourceState) : Option ℚ :=
  if cfg.cost_sensor then
    match cost with
    | .reading r => some r
    | _ => none
  else
    none

/-- The empty `ApplianceData` built on the power-sensor-missing path when
no previous snapshot exists (coordinator.py lines 185-209). -/
def emptyData (cfg : Config) (s : CoordState) (now : ℚ) : ApplianceData where
  last_update := now
  power_state := 0
  power_kw := 0
  is_running := false
  start_time := none
  end_time := none
  use_count := s.use_count
  cycle_energy := 0
  previous_cycle_energy := s.previous_cycle_energy
  total_energy := s.total_energy
  cycle_cost := 0
  previous_cycle_cost := s.previous_cycle_cost
  total_cost := s.total_cost
  last_power := 0
  last_power_time := none
  cycle_duration := none
  last_cycle_duration := s.last_cycle_duration
  total_duration := s.total_duration
  service_status := "disabled"
  service_reminder_enabled := cfg.service_reminder
  service_reminder_message := cfg.service_reminder_message
  service_reminder_count := cfg.service_reminder_count
  remaining_cycles := max 0 (cfg.service_reminder_count - s.use_count)

/-- One call of `_async_update_data`, returning the coordinator state
after the call together with either the published snapshot or the
`UpdateFailed` message.  On success the framework stores the returned
snapshot in `self.data`; this assignment is included here. -/
def asyncUpdateData (cfg : Config) (s : CoordState) (inp : TickInput) :
    CoordState × Except String ApplianceData :=
  match inp.power with
  | .missing =>
      match s.data with
      | some d => (s, .ok d)
      | none =>
          let d := emptyData cfg s inp.now
          ({ s with data := some d }, .ok d)
  | .unparseable =>
      match s.data with
      | some d => (s, .ok d)
      | none => (s, .error "Invalid power reading")
  | .reading current_power =>
      let current_time := inp.now
      let power_kw := current_power / 1000
      let res := calculateIntervalEnergy s current_power current_time
      let interval_energy := res.1
      let s1 := res.2
      let cost_rate := getCurrentCostRate cfg inp.cost
      let interval_cost :=
        match cost_rate with
        | some r => interval_energy * r
        | none => 0
      let is_on := classify current_power s.was_on cfg.start_watts cfg.stop_watts
      let current_duration :=
        match s.start_time with
        | some st => current_time - st
        | none => 0
      let s2 :=
        if is_on && !s.was_on then
          { s1 with start_time := some current_time, end_time := none,
                    cycle_energy := 0, cycle_cost := 0 }
        else if !is_on && s.was_on then
          let sEnd := { s1 with end_time := some current_time,
                                use_count := s1.use_count + 1 }
          if sEnd.last_cycle_end_time ≠ some current_time then
            { sEnd with previous_cycle_energy := sEnd.cycle_energy,
                        previous_cycle_cost := sEnd.cycle_cost,
                        last_cycle_duration := some current_duration,
                        total_duration := sEnd.total_duration + current_duration,
                        last_cycle_end_time := some current_time }
          else sEnd
        else s1
      let s3 :=
        if is_on || s.was_on then
          { s2 with cycle_energy := s2.cycle_energy + interval_energy,
                    total_energy := s2.total_energy + interval_energy,
                    cycle_cost := s2.cycle_cost + interval_cost,
                    total_cost := s2.total_cost + interval_cost }
        else s2
      let s4 := { s3 with was_on := is_on }
      let d : ApplianceData :=
        { last_update := current_time
          power_state := current_power
          power_kw := power_kw
          is_running := is_on
          start_time := s4.start_time
          end_time := s4.end_time
          use_count := s4.use_count
          cycle_energy := s4.cycle_energy
          previous_cycle_energy := s4.previous_cycle_energy
          total_energy := s4.total_energy
          cycle_cost := s4.cycle_cost
          previous_cycle_cost := s4.previous_cycle_cost
          total_cost := s4.total_cost
          last_power := s4.last_power
          last_power_time := s4.last_power_time
          cycle_duration := if is_on then some current_duration else none
          last_cycle_duration := s4.last_cycle_duration
          total_duration := s4.total_duration
          service_status := if is_on then "ok" else "disabled"
          service_reminder_enabled := cfg.service_reminder
          service_reminder_message := cfg.service_reminder_message
          service_reminder_count := cfg.service_reminder_count
          remaining_cycles := max 0 (cfg.service_reminder_count - s4.use_count) }
      ({ s4 with data := some d }, .ok d)

/-- Run `_async_update_data` over a list of ticks, returning the final
coordinator state. -/
def runState (cfg : Config) : CoordState → List TickInput → CoordState
  | s, [] => s
  | s, tk :: rest => runState cfg (asyncUpdateData cfg s tk).1 rest

/-- Run `_async_update_data` over a list of ticks, collecting the
snapshots returned by the successful updates (the data published to
listeners). -/
def runSnaps (cfg : Config) : CoordState → List TickInput → List ApplianceData
  | _, [] => []
  | s, tk :: rest =>
      match asyncUpdateData cfg s tk with
      | (s2, .ok d) => d :: runSnaps cfg s2 rest
      | (s2, .error _) => runSnaps cfg s2 rest

/-- Successive running states produced by the classifier over a list of
power readings, starting from a given previous running flag. -/
def classifySeq (start_watts stop_watts : ℚ) : Bool → List ℚ → List Bool
  | _, [] => []
  | was_on, p :: rest =>
      let b := classify p was_on start_watts stop_watts
      b :: classifySeq start_watts stop_watts b rest

/-- `validate_watt_thresholds` from `config_flow.py`: returns whether the
errors dictionary is non-empty.  Missing values take the defaults from
`const.py` (`DEFAULT_START_WATTS = 100.0`, `DEFAULT_STOP_WATTS = 50.0`);
the error is raised when `stop_watts >= start_watts`. -/
def validateWattThresholds (start_watts stop_watts : Option ℚ) : Bool :=
  decide (start_watts.getD 100 ≤ stop_watts.getD 50)

/-- The service status function as the specification words it
(spec section 4.5): `disabled` if reminders are not enabled,
`needs_service` if `use_count >= service_reminder_count`, otherwise
`ok`.  Stated from the spec for comparison with the published
`service_status` field. -/
def serviceStatusSpec (enabled : Bool) (use_count : ℕ) (reminder_count : ℚ) : String :=
  if !enabled then "disabled"
  else if reminder_count ≤ (use_count : ℚ) then "needs_service"
  else "ok"

/-- Convenience: project the snapshot out of an update result. -/
def okData : Except String ApplianceData → Option ApplianceData
  | .ok d => some d
  | .error _ => none

/-- A tick carrying a parsed power reading, no cost reading. -/
def mkTick (t p : ℚ) : TickInput where
  power := .reading p
  cost := .missing
  now := t

/-- Trapezoidal sum of a timed reading list, starting from baseline
reading `p0` at time `t0`; list entries are (time, power) pairs with
times in seconds, result in kWh. -/
def trapSum : ℚ → ℚ → List (ℚ × ℚ) → ℚ
  | _, _, [] => 0
  | p0, t0, (t, p) :: rest =>
      (p0 + p) * ((t - t0) / 3600) / (2 * 1000) + trapSum p t rest

/-- Build power-reading ticks from (time, power) pairs. -/
def mkTicks (l : List (ℚ × ℚ)) : List TickInput :=
  l.map (fun tp => mkTick tp.1 tp.2)

/-- Update-failure test: whether `_async_update_data` raised
`UpdateFailed`. -/
def updateFailed : Except String ApplianceData → Bool
  | .error _ => true
  | .ok _ => false

/-- A sample configuration: thresholds 100/50 W, no cost sensor,
service reminders enabled after 3 uses. -/
def cfgReminder3 : Config where
  start_watts := 100
  stop_watts := 50
  cost_sensor := false
  service_reminder := true
  service_reminder_message := "Service needed"
  service_reminder_count := 3

/-- A coordinator state mid-cycle with five completed uses. -/
def stateFiveUses : CoordState :=
  { initState with use_count := 5, was_on := true, start_time := some 0,
                   last_power := 120, last_power_time := some 0 }

/-- Claim C1: the classifier decides running by hysteresis.  When not
previously running it becomes running iff the power exceeds
`start_watts`; when previously running it remains running iff the power
exceeds `stop_watts` (given the hysteresis configuration
`stop_watts ≤ start_watts`).  The sequence [0, 120, 70, 120, 40] with
thresholds 100/50 yields [false, true, true, true, false]. -/
theorem classify_hysteresis (start_watts stop_watts p : ℚ) (was_on : Bool)
    (h : stop_watts ≤ start_watts) :
    (classify p was_on start_watts stop_watts =
      if was_on then decide (stop_watts < p) else decide (start_watts < p))
    ∧ classifySeq 100 50 false [0, 120, 70, 120, 40]
        = [false, true, true, true, false] := by
  constructor
  · cases was_on with
    | false => simp [classify]
    | true =>
        by_cases hp : stop_watts < p
        · simp [classify, hp]
        · have hps : ¬ start_watts < p := fun hc => hp (lt_of_le_of_lt h hc)
          simp [classify, hp, hps]
  · decide

/-- Witness for `classify_hysteresis` at start=100, stop=50, p=70,
previously running. -/
theorem classify_hysteresis_witness :
    classify 70 true 100 50 =
      (if true then decide ((50 : ℚ) < 70) else decide ((100 : ℚ) < 70)) :=
  (classify_hysteresis 100 50 70 true (by norm_num)).1

/-- Claim C4: `_calculate_interval_energy` implements the trapezoidal
rule `(prior_power + current_power) * elapsed_hours / 2 / 1000` with
`elapsed_hours = (current_time - prior_time) / 3600`; on the very first
call (no recorded prior reading) it returns 0 and records the current
reading and timestamp as baseline; integrating two readings of constant
power `P` separated by `Thr` hours yields exactly `P * Thr / 1000`. -/
theorem interval_energy_trapezoidal :
    (∀ (s : CoordState) (p t t0 : ℚ), s.last_power_time = some t0 →
        (calculateIntervalEnergy s p t).1 =
          (s.last_power + p) * ((t - t0) / 3600) / (2 * 1000))
    ∧ (∀ (s : CoordState) (p t : ℚ), s.last_power_time = none →
        calculateIntervalEnergy s p t =
          (0, { s with last_power := p, last_power_time := some t }))
    ∧ (∀ (s : CoordState) (P t0 Thr : ℚ), s.last_power_time = none →
        (calculateIntervalEnergy s P t0).1 +
          (calculateIntervalEnergy (calculateIntervalEnergy s P t0).2 P
              (t0 + 3600 * Thr)).1
          = P * Thr / 1000) := by
  refine ⟨?_, ?_, ?_⟩
  · intro s p t t0 h
    simp [calculateIntervalEnergy, h]
  · intro s p t h
    simp [calculateIntervalEnergy, h]
  · intro s P t0 Thr h
    simp only [calculateIntervalEnergy, h]
    ring

/-- Witness for `interval_energy_trapezoidal`: constant 200 W for half an
hour integrates to 0.1 kWh. -/
theorem interval_energy_trapezoidal_witness :
    (calculateIntervalEnergy initState 200 0).1 +
      (calculateIntervalEnergy (calculateIntervalEnergy initState 200 0).2 200
          (0 + 3600 * (1 / 2))).1
      = 200 * (1 / 2) / 1000 :=
  interval_energy_trapezoidal.2.2 initState 200 0 (1 / 2) rfl

/-- Claim C6 counterexample: the claim says configuration validation
accepts `start_watts == stop_watts`, but `validate_watt_thresholds`
reports an error for start = stop = 50 (it rejects
`stop_watts >= start_watts`). -/
theorem watt_threshold_equal_rejected :
    validateWattThresholds (some 50) (some 50) = true := by decide

/-- Claim C6 (amended): `validate_watt_thresholds` reports an error
exactly when `stop_watts >= start_watts` (defaults 100/50 for missing
values); in particular equality is rejected, and only
`stop_watts < start_watts` is accepted. -/
theorem watt_threshold_validation (start_watts stop_watts : Option ℚ) :
    validateWattThresholds start_watts stop_watts = true ↔
      start_watts.getD 100 ≤ stop_watts.getD 50 := by
  simp [validateWattThresholds]

/-- Claim C7: when the power sensor is missing or its state is not
parseable as a float and a previously published snapshot exists, the
update returns that snapshot unchanged and the coordinator state is not
modified. -/
theorem unavailable_keeps_last_snapshot (cfg : Config) (s : CoordState)
    (inp : TickInput) (d : ApplianceData)
    (h1 : inp.power = SourceState.missing ∨ inp.power = SourceState.unparseable)
    (h2 : s.data = some d) :
    asyncUpdateData cfg s inp = (s, .ok d) := by
  rcases h1 with h | h <;> simp [asyncUpdateData, h, h2]

/-- Witness for `unavailable_keeps_last_snapshot` on a concrete state
holding an empty snapshot. -/
theorem unavailable_keeps_last_snapshot_witness :
    asyncUpdateData cfgReminder3
        { initState with data := some (emptyData cfgReminder3 initState 0) }
        { power := .missing, cost := .missing, now := 5 }
      = ({ initState with data := some (emptyData cfgReminder3 initState 0) },
         .ok (emptyData cfgReminder3 initState 0)) :=
  unavailable_keeps_last_snapshot cfgReminder3 _ _ _ (Or.inl rfl) rfl

/-- Claim C10: the update raises `UpdateFailed` exactly when the power
state is present but unparseable and no previously published snapshot
exists, and on that path the coordinator state is returned unmodified. -/
theorem update_failed_characterisation (cfg : Config) (s : CoordState)
    (inp : TickInput) :
    (updateFailed (asyncUpdateData cfg s inp).2 = true ↔
      inp.power = SourceState.unparseable ∧ s.data = none)
    ∧ (inp.power = SourceState.unparseable → s.data = none →
        asyncUpdateData cfg s inp = (s, .error "Invalid power reading")) := by
  constructor
  · cases hp : inp.power <;> cases hd : s.data <;>
      simp [asyncUpdateData, updateFailed, hp, hd]
  · intro hp hd
    simp [asyncUpdateData, hp, hd]

/-- Witness for `update_failed_characterisation`: an unparseable reading
with no previous snapshot fails atomically. -/
theorem update_failed_characterisation_witness :
    asyncUpdateData cfgReminder3 initState
        { power := .unparseable, cost := .missing, now := 0 }
      = (initState, .error "Invalid power reading") :=
  (update_failed_characterisation cfgReminder3 initState
      { power := .unparseable, cost := .missing, now := 0 }).2 rfl rfl

/-- Claim C3: the published `service_status` is not the tri-state
function of (service_reminder_enabled, use_count, service_reminder_count)
described by the spec and by the `ApplianceData` field documentation.
With reminders enabled, reminder count 3 and five completed uses, the
coordinator publishes "ok" while running and "disabled" while idle,
where the documented function yields "needs_service"; the code never
publishes "needs_service". -/
theorem service_status_ignores_use_count :
    (okData (asyncUpdateData cfgReminder3 stateFiveUses (mkTick 3600 120)).2).map
        ApplianceData.service_status = some "ok"
    ∧ (okData (asyncUpdateData cfgReminder3 stateFiveUses (mkTick 3600 120)).2).map
        ApplianceData.use_count = some 5
    ∧ (okData (asyncUpdateData cfgReminder3 stateFiveUses (mkTick 3600 120)).2).map
        ApplianceData.service_reminder_enabled = some true
    ∧ serviceStatusSpec true 5 3 = "needs_service"
    ∧ (okData (asyncUpdateData cfgReminder3 stateFiveUses (mkTick 3600 0)).2).map
        ApplianceData.service_status = some "disabled"
    ∧ (okData (asyncUpdateData cfgReminder3 stateFiveUses (mkTick 3600 0)).2).map
        ApplianceData.use_count = some 6
    ∧ serviceStatusSpec true 6 3 = "needs_service" := by
  refine ⟨?_, ?_, ?_, ?_, ?_, ?_, ?_⟩ <;> decide

/-- The remaining-cycles invariant satisfied by a published snapshot. -/
def remainingOk (d : ApplianceData) : Prop :=
  d.remaining_cycles = max 0 (d.service_reminder_count - d.use_count)
  ∧ 0 ≤ d.remaining_cycles
  ∧ (d.remaining_cycles = 0 ↔ d.service_reminder_count ≤ d.use_count)

lemma remainingOk_of_fields (d : ApplianceData)
    (h : d.remaining_cycles = max 0 (d.service_reminder_count - d.use_count)) :
    remainingOk d := by
  refine ⟨h, ?_, ?_⟩
  · rw [h]; exact le_max_left _ _
  · rw [h, max_eq_left_iff, sub_nonpos]

lemma asyncUpdateData_remaining (cfg : Config) (s : CoordState) (inp : TickInput)
    (hs : ∀ d, s.data = some d → remainingOk d) :
    (∀ d, (asyncUpdateData cfg s inp).2 = .ok d → remainingOk d)
    ∧ (∀ d, (asyncUpdateData cfg s inp).1.data = some d → remainingOk d) := by
  cases hp : inp.power with
  | missing =>
      cases hd : s.data with
      | some d0 =>
          constructor <;> intro d h <;> simp [asyncUpdateData, hp, hd] at h <;>
            exact h ▸ hs d0 hd
      | none =>
          constructor <;> intro d h <;> simp [asyncUpdateData, hp, hd] at h <;>
            exact h ▸ remainingOk_of_fields _ rfl
  | unparseable =>
      cases hd : s.data with
      | some d0 =>
          constructor <;> intro d h <;> simp [asyncUpdateData, hp, hd] at h <;>
            exact h ▸ hs d0 hd
      | none =>
          constructor <;> intro d h <;> simp [asyncUpdateData, hp, hd] at h
  | reading p =>
      constructor <;> intro d h <;> simp only [asyncUpdateData, hp] at h <;>
        simp only [Option.some.injEq, Except.ok.injEq] at h <;>
        exact h ▸ remainingOk_of_fields _ rfl

lemma runSnaps_remaining (cfg : Config) :
    ∀ (ticks : List TickInput) (s : CoordState),
      (∀ d, s.data = some d → remainingOk d) →
      ∀ d ∈ runSnaps cfg s ticks, remainingOk d := by
  intro ticks
  induction ticks with
  | nil => intro s hs d hd; simp [runSnaps] at hd
  | cons tk rest ih =>
      intro s hs d hd
      have hstep := asyncUpdateData_remaining cfg s tk hs
      rcases hr : asyncUpdateData cfg s tk with ⟨s2, r⟩
      have hinv2 : ∀ d, s2.data = some d → remainingOk d := by
        intro d h
        exact hstep.2 d (by rw [hr]; exact h)
      cases r with
      | ok d0 =>
          simp only [runSnaps, hr] at hd
          rcases List.mem_cons.mp hd with rfl | hd2
          · exact hstep.1 d (by rw [hr])
          · exact ih s2 hinv2 d hd2
      | error e =>
          simp only [runSnaps, hr] at hd
          exact ih s2 hinv2 d hd

/-- Claim C9: every published snapshot satisfies
`remaining_cycles = max 0 (service_reminder_count - use_count)`; in
particular `remaining_cycles` is never negative and reaches 0 exactly
when `use_count >= service_reminder_count`. -/
theorem remaining_cycles_formula (cfg : Config) (ticks : List TickInput) :
    ∀ d ∈ runSnaps cfg initState ticks,
      d.remaining_cycles = max 0 (d.service_reminder_count - d.use_count)
      ∧ 0 ≤ d.remaining_cycles
      ∧ (d.remaining_cycles = 0 ↔ d.service_reminder_count ≤ d.use_count) := by
  intro d hd
  refine runSnaps_remaining cfg ticks initState ?_ d hd
  intro d h
  simp [initState] at h

/-- Witness for `remaining_cycles_formula` on the snapshot published for
a missing power sensor from the initial state. -/
theorem remaining_cycles_formula_witness :
    (emptyData cfgReminder3 initState 0).remaining_cycles
        = max 0 ((emptyData cfgReminder3 initState 0).service_reminder_count
            - (emptyData cfgReminder3 initState 0).use_count)
    ∧ 0 ≤ (emptyData cfgReminder3 initState 0).remaining_cycles
    ∧ ((emptyData cfgReminder3 initState 0).remaining_cycles = 0 ↔
        (emptyData cfgReminder3 initState 0).service_reminder_count
          ≤ (emptyData cfgReminder3 initState 0).use_count) :=
  remaining_cycles_formula cfgReminder3
    [{ power := .missing, cost := .missing, now := 0 }] _ (by
      have h : runSnaps cfgReminder3 initState
          [{ power := .missing, cost := .missing, now := 0 }]
          = [emptyData cfgReminder3 initState 0] := rfl
      rw [h]
      exact List.mem_singleton.mpr rfl)

/-- Zero out the cost fields of a snapshot. -/
def eraseCostD (d : ApplianceData) : ApplianceData :=
  { d with cycle_cost := 0, previous_cycle_cost := 0, total_cost := 0 }

/-- Zero out the cost fields of the coordinator state. -/
def eraseCostS (s : CoordState) : CoordState :=
  { s with cycle_cost := 0, previous_cycle_cost := 0, total_cost := 0,
           data := s.data.map eraseCostD }

set_option maxHeartbeats 1600000 in
lemma asyncUpdateData_eraseCost (cfg : Config) (h : cfg.cost_sensor = false)
    (s : CoordState) (inp : TickInput) :
    asyncUpdateData cfg (eraseCostS s) inp
      = (eraseCostS (asyncUpdateData { cfg with cost_sensor := true } s inp).1,
         Except.map eraseCostD
           (asyncUpdateData { cfg with cost_sensor := true } s inp).2) := by
  cases hp : inp.power with
  | missing =>
      cases hd : s.data with
      | some d0 => simp [asyncUpdateData, eraseCostS, hp, hd, Except.map]
      | none =>
          simp [asyncUpdateData, eraseCostS, eraseCostD, emptyData, hp, hd, Except.map]
  | unparseable =>
      cases hd : s.data with
      | some d0 => simp [asyncUpdateData, eraseCostS, hp, hd, Except.map]
      | none => simp [asyncUpdateData, eraseCostS, hp, hd, Except.map]
  | reading p =>
      cases hlt : s.last_power_time <;> cases hc : inp.cost <;>
        simp only [asyncUpdateData, hp, hlt, hc, getCurrentCostRate, h, if_false,
          Bool.false_eq_true, calculateIntervalEnergy, eraseCostS, eraseCostD,
          Except.map, Option.map_some, Option.map_none] <;>
        split_ifs <;>
        simp [Prod.mk.injEq, Except.ok.injEq, CoordState.mk.injEq,
          ApplianceData.mk.injEq, Option.map, eraseCostD]

lemma runSnaps_eraseCost (cfg : Config) (h : cfg.cost_sensor = false) :
    ∀ (ticks : List TickInput) (s : CoordState),
      runSnaps cfg (eraseCostS s) ticks
        = (runSnaps { cfg with cost_sensor := true } s ticks).map eraseCostD := by
  intro ticks
  induction ticks with
  | nil => intro s; simp [runSnaps]
  | cons tk rest ih =>
      intro s
      rcases hr : asyncUpdateData { cfg with cost_sensor := true } s tk with ⟨s2, r⟩
      have hstep := asyncUpdateData_eraseCost cfg h s tk
      rw [hr] at hstep
      cases r with
      | ok d0 =>
          simp only [runSnaps, hstep, Except.map, hr, List.map]
          exact congrArg (List.cons (eraseCostD d0)) (ih s2)
      | error e =>
          simp only [runSnaps, hstep, Except.map, hr]
          exact ih s2

/-- Claim C8: with no price source configured the per-tick cost rate is
always `None`, every published snapshot has all cost fields equal to 0,
and the run differs from the same run with a configured price source
only in the cost fields (energy still accumulates identically);
moreover, under any configuration a missing or unparseable price state
yields rate `None`, hence interval cost 0 for that tick. -/
theorem no_cost_source_costs_zero (cfg : Config) (ticks : List TickInput)
    (h : cfg.cost_sensor = false) :
    runSnaps cfg initState ticks
      = (runSnaps { cfg with cost_sensor := true } initState ticks).map eraseCostD
    ∧ (∀ c, getCurrentCostRate cfg c = none)
    ∧ (∀ d ∈ runSnaps cfg initState ticks,
        d.cycle_cost = 0 ∧ d.previous_cycle_cost = 0 ∧ d.total_cost = 0)
    ∧ (∀ cfg2 : Config, getCurrentCostRate cfg2 SourceState.missing = none
        ∧ getCurrentCostRate cfg2 SourceState.unparseable = none) := by
  have hinit : eraseCostS initState = initState := rfl
  have hrun := runSnaps_eraseCost cfg h ticks initState
  rw [hinit] at hrun
  refine ⟨hrun, ?_, ?_, ?_⟩
  · intro c; simp [getCurrentCostRate, h]
  · intro d hd
    rw [hrun] at hd
    rcases List.mem_map.mp hd with ⟨d0, _, rfl⟩
    simp [eraseCostD]
  · intro cfg2
    cases h2 : cfg2.cost_sensor <;> simp [getCurrentCostRate, h2]

/-- Witness for `no_cost_source_costs_zero`: the sample configuration has
no cost sensor and its cost rate is `None`. -/
theorem no_cost_source_costs_zero_witness :
    getCurrentCostRate cfgReminder3 SourceState.missing = none :=
  (no_cost_source_costs_zero cfgReminder3 [] rfl).2.1 SourceState.missing

lemma calculateIntervalEnergy_state (s : CoordState) (p t : ℚ) :
    (calculateIntervalEnergy s p t).2
      = { s with last_power := p, last_power_time := some t } := by
  cases h : s.last_power_time <;> simp [calculateIntervalEnergy, h]

lemma calculateIntervalEnergy_nonneg (s : CoordState) (p t : ℚ)
    (hlp : 0 ≤ s.last_power) (hp : 0 ≤ p)
    (hlt : ∀ t0, s.last_power_time = some t0 → t0 ≤ t) :
    0 ≤ (calculateIntervalEnergy s p t).1 := by
  cases h : s.last_power_time with
  | none => simp [calculateIntervalEnergy, h]
  | some t0 =>
      have ht0 := hlt t0 h
      simp only [calculateIntervalEnergy, h]
      have h1 : 0 ≤ s.last_power + p := by linarith
      have h2 : 0 ≤ (t - t0) / 3600 := by
        have : 0 ≤ t - t0 := by linarith
        positivity
      exact div_nonneg (mul_nonneg h1 h2) (by norm_num)

lemma getCurrentCostRate_some (cfg : Config) (c : SourceState) (r : ℚ)
    (h : getCurrentCostRate cfg c = some r) : c = SourceState.reading r := by
  cases hcs : cfg.cost_sensor <;> cases c <;>
    simp [getCurrentCostRate, hcs] at h <;> simp [h]

lemma update_totals_mono (cfg : Config) (s : CoordState) (inp : TickInput) (p : ℚ)
    (hp : inp.power = SourceState.reading p) (hp0 : 0 ≤ p)
    (hlp : 0 ≤ s.last_power)
    (hlt : ∀ t0, s.last_power_time = some t0 → t0 ≤ inp.now)
    (hr : ∀ r, inp.cost = SourceState.reading r → 0 ≤ r) :
    s.total_energy ≤ (asyncUpdateData cfg s inp).1.total_energy
    ∧ s.total_cost ≤ (asyncUpdateData cfg s inp).1.total_cost
    ∧ 0 ≤ (asyncUpdateData cfg s inp).1.last_power
    ∧ (asyncUpdateData cfg s inp).1.last_power_time = some inp.now
    ∧ Except.map (fun d => (d.total_energy, d.total_cost))
          (asyncUpdateData cfg s inp).2
        = .ok ((asyncUpdateData cfg s inp).1.total_energy,
               (asyncUpdateData cfg s inp).1.total_cost) := by
  have he := calculateIntervalEnergy_nonneg s p inp.now hlp hp0 hlt
  have hcost : 0 ≤ (match getCurrentCostRate cfg inp.cost with
      | some r => (calculateIntervalEnergy s p inp.now).1 * r
      | none => 0) := by
    cases hg : getCurrentCostRate cfg inp.cost with
    | none => simp
    | some r =>
        have hcr := getCurrentCostRate_some cfg inp.cost r hg
        have hr0 := hr r hcr
        simpa using mul_nonneg he hr0
  simp only [asyncUpdateData, hp, calculateIntervalEnergy_state]
  split_ifs <;>
    refine ⟨?_, ?_, ?_, ?_, ?_⟩ <;>
    (try simp [Except.map]) <;>
    (first
      | rfl
      | exact hp0
      | exact he
      | exact hcost
      | linarith [he, hcost])

lemma totals_chain (cfg : Config) :
    ∀ (ticks : List TickInput) (s : CoordState),
      (∀ tk ∈ ticks, ∃ p, tk.power = SourceState.reading p ∧ 0 ≤ p) →
      (∀ tk ∈ ticks, ∀ r, tk.cost = SourceState.reading r → 0 ≤ r) →
      List.Chain' (· ≤ ·) (ticks.map TickInput.now) →
      0 ≤ s.last_power →
      (∀ t0, s.last_power_time = some t0 → ∀ tk0 ∈ ticks.head?, t0 ≤ tk0.now) →
      List.Chain' (fun a b => a.1 ≤ b.1 ∧ a.2 ≤ b.2)
          ((runSnaps cfg s ticks).map fun d => (d.total_energy, d.total_cost))
      ∧ ∀ x ∈ ((runSnaps cfg s ticks).map
            fun d => (d.total_energy, d.total_cost)).head?,
          s.total_energy ≤ x.1 ∧ s.total_cost ≤ x.2 := by
  intro ticks
  induction ticks with
  | nil =>
      intro s _ _ _ _ _
      simp [runSnaps]
  | cons tk rest ih =>
      intro s hp hr ht hlp hlt
      obtain ⟨p, hpk, hp0⟩ := hp tk (List.mem_cons_self tk rest)
      have hstep := update_totals_mono cfg s tk p hpk hp0 hlp
        (fun t0 h0 => hlt t0 h0 tk (by simp))
        (hr tk (List.mem_cons_self tk rest))
      rcases hu : asyncUpdateData cfg s tk with ⟨s2, r⟩
      rw [hu] at hstep
      obtain ⟨hE, hC, hlp2, hlpt2, hok⟩ := hstep
      cases r with
      | error e => simp [Except.map] at hok
      | ok d =>
          simp only [Except.map, Except.ok.injEq, Prod.mk.injEq] at hok
          obtain ⟨hdE, hdC⟩ := hok
          have ih2 := ih s2
            (fun tk2 h2 => hp tk2 (List.mem_cons_of_mem _ h2))
            (fun tk2 h2 => hr tk2 (List.mem_cons_of_mem _ h2))
            (by simpa using (List.map TickInput.now (tk :: rest)
                  |> fun _ => ht.tail))
            hlp2
            (by
              intro t0 h0 tk0 h00
              rw [hlpt2] at h0
              have ht0 : t0 = tk.now := by
                injection h0 with h0e; exact h0e.symm
              subst ht0
              have hhead : tk0.now ∈ (rest.map TickInput.now).head? := by
                rw [List.head?_map]
                exact Option.mem_map_of_mem TickInput.now h00
              exact List.Chain'.rel_head? (by simpa using ht) hhead)
          simp only [runSnaps, hu, List.map]
          constructor
          · refine List.Chain'.cons' ih2.1 ?_
            intro y hy
            have hrel := ih2.2 y hy
            exact ⟨by rw [hdE]; exact hrel.1, by rw [hdC]; exact hrel.2⟩
          · intro x hx
            simp only [List.head?_cons, Option.mem_some_iff] at hx
            subst hx
            exact ⟨by rw [hdE]; exact hE, by rw [hdC]; exact hC⟩

/-- Claim C5 counterexample: a negative power reading is integrated
as-is, so `total_energy` decreases between successive published
snapshots (thresholds 100/50 W; readings 120 W at t=0 s, then -500 W at
t=3600 s give totals 0 then -0.19 kWh). -/
theorem total_energy_can_decrease :
    (runSnaps cfgReminder3 initState [mkTick 0 120, mkTick 3600 (-500)]).map
        ApplianceData.total_energy = [0, -19/100]
    ∧ ¬ ((0 : ℚ) ≤ -19/100) := by
  constructor
  · norm_num [runSnaps, asyncUpdateData, calculateIntervalEnergy, classify,
      getCurrentCostRate, initState, cfgReminder3, mkTick]
    split <;> rfl
  · norm_num

/-- Claim C5 (amended): across every run of successful updates whose
power readings are all parseable and non-negative, whose parsed cost
rates are non-negative and whose timestamps are non-decreasing,
`total_energy` and `total_cost` never decrease from one published
snapshot to the next, even across cycle boundaries. -/
theorem totals_monotone (cfg : Config) (ticks : List TickInput)
    (hp : ∀ tk ∈ ticks, ∃ p, tk.power = SourceState.reading p ∧ 0 ≤ p)
    (hr : ∀ tk ∈ ticks, ∀ r, tk.cost = SourceState.reading r → 0 ≤ r)
    (ht : List.Chain' (· ≤ ·) (ticks.map TickInput.now)) :
    List.Chain' (fun a b => a.1 ≤ b.1 ∧ a.2 ≤ b.2)
      ((runSnaps cfg initState ticks).map
        fun d => (d.total_energy, d.total_cost)) :=
  (totals_chain cfg ticks initState hp hr ht (le_refl 0)
    (by intro t0 h0; simp [initState] at h0)).1

/-- Witness for `totals_monotone` on a concrete two-tick run. -/
theorem totals_monotone_witness :
    List.Chain' (fun a b => a.1 ≤ b.1 ∧ a.2 ≤ b.2)
      ((runSnaps cfgReminder3 initState [mkTick 0 120, mkTick 3600 80]).map
        fun d => (d.total_energy, d.total_cost)) :=
  totals_monotone cfgReminder3 [mkTick 0 120, mkTick 3600 80]
    (by
      intro tk h
      simp only [List.mem_cons, List.not_mem_nil, or_false] at h
      rcases h with rfl | rfl
      · exact ⟨120, rfl, by norm_num⟩
      · exact ⟨80, rfl, by norm_num⟩)
    (by
      intro tk h r hc
      simp only [List.mem_cons, List.not_mem_nil, or_false] at h
      rcases h with rfl | rfl <;> simp [mkTick] at hc)
    (by norm_num [mkTick, List.chain'_cons, List.chain'_singleton])

/-- Last (power, time) pair of a timed reading list, starting from a
baseline pair. -/
def lastPoint : ℚ → ℚ → List (ℚ × ℚ) → ℚ × ℚ
  | p0, t0, [] => (p0, t0)
  | _, _, (t, p) :: rest => lastPoint p t rest

lemma runState_append (cfg : Config) :
    ∀ (l1 l2 : List TickInput) (s : CoordState),
      runState cfg s (l1 ++ l2) = runState cfg (runState cfg s l1) l2 := by
  intro l1
  induction l1 with
  | nil => intro l2 s; simp [runState]
  | cons tk rest ih => intro l2 s; simp [runState, ih]

lemma asyncUpdateData_idle (cfg : Config) (s : CoordState) (t p : ℚ)
    (hw : s.was_on = false) (hp : ¬ cfg.start_watts < p) :
    (asyncUpdateData cfg s (mkTick t p)).1.was_on = false
    ∧ (asyncUpdateData cfg s (mkTick t p)).1.use_count = s.use_count
    ∧ (asyncUpdateData cfg s (mkTick t p)).1.start_time = s.start_time
    ∧ (asyncUpdateData cfg s (mkTick t p)).1.last_cycle_end_time
        = s.last_cycle_end_time
    ∧ (asyncUpdateData cfg s (mkTick t p)).1.total_duration = s.total_duration
    ∧ (asyncUpdateData cfg s (mkTick t p)).1.last_power = p
    ∧ (asyncUpdateData cfg s (mkTick t p)).1.last_power_time = some t := by
  refine ⟨?_, ?_, ?_, ?_, ?_, ?_, ?_⟩ <;>
    simp [asyncUpdateData, mkTick, classify, calculateIntervalEnergy_state, hw, hp]

lemma asyncUpdateData_rising (cfg : Config) (s : CoordState) (t p t0 : ℚ)
    (hw : s.was_on = false) (hp : cfg.start_watts < p)
    (hlt : s.last_power_time = some t0) :
    (asyncUpdateData cfg s (mkTick t p)).1.was_on = true
    ∧ (asyncUpdateData cfg s (mkTick t p)).1.use_count = s.use_count
    ∧ (asyncUpdateData cfg s (mkTick t p)).1.start_time = some t
    ∧ (asyncUpdateData cfg s (mkTick t p)).1.last_cycle_end_time
        = s.last_cycle_end_time
    ∧ (asyncUpdateData cfg s (mkTick t p)).1.total_duration = s.total_duration
    ∧ (asyncUpdateData cfg s (mkTick t p)).1.cycle_energy
        = (s.last_power + p) * ((t - t0) / 3600) / (2 * 1000)
    ∧ (asyncUpdateData cfg s (mkTick t p)).1.last_power = p
    ∧ (asyncUpdateData cfg s (mkTick t p)).1.last_power_time = some t := by
  refine ⟨?_, ?_, ?_, ?_, ?_, ?_, ?_, ?_⟩ <;>
    simp [asyncUpdateData, mkTick, classify, calculateIntervalEnergy,
      calculateIntervalEnergy_state, hw, hp, hlt]

lemma asyncUpdateData_high (cfg : Config) (s : CoordState) (t p t0 : ℚ)
    (hw : s.was_on = true) (hp : cfg.stop_watts < p)
    (hlt : s.last_power_time = some t0) :
    (asyncUpdateData cfg s (mkTick t p)).1.was_on = true
    ∧ (asyncUpdateData cfg s (mkTick t p)).1.use_count = s.use_count
    ∧ (asyncUpdateData cfg s (mkTick t p)).1.start_time = s.start_time
    ∧ (asyncUpdateData cfg s (mkTick t p)).1.last_cycle_end_time
        = s.last_cycle_end_time
    ∧ (asyncUpdateData cfg s (mkTick t p)).1.total_duration = s.total_duration
    ∧ (asyncUpdateData cfg s (mkTick t p)).1.cycle_energy
        = s.cycle_energy + (s.last_power + p) * ((t - t0) / 3600) / (2 * 1000)
    ∧ (asyncUpdateData cfg s (mkTick t p)).1.last_power = p
    ∧ (asyncUpdateData cfg s (mkTick t p)).1.last_power_time = some t := by
  refine ⟨?_, ?_, ?_, ?_, ?_, ?_, ?_, ?_⟩ <;>
    simp [asyncUpdateData, mkTick, classify, calculateIntervalEnergy,
      calculateIntervalEnergy_state, hw, hp, hlt]

lemma asyncUpdateData_falling (cfg : Config) (s : CoordState) (t p t0 st : ℚ)
    (hw : s.was_on = true) (hp1 : ¬ cfg.start_watts < p)
    (hp2 : ¬ cfg.stop_watts < p)
    (hlt : s.last_power_time = some t0) (hst : s.start_time = some st)
    (hg : ¬ s.last_cycle_end_time = some t) :
    (asyncUpdateData cfg s (mkTick t p)).1.was_on = false
    ∧ (asyncUpdateData cfg s (mkTick t p)).1.use_count = s.use_count + 1
    ∧ (asyncUpdateData cfg s (mkTick t p)).1.end_time = some t
    ∧ (asyncUpdateData cfg s (mkTick t p)).1.previous_cycle_energy
        = s.cycle_energy
    ∧ (asyncUpdateData cfg s (mkTick t p)).1.previous_cycle_cost = s.cycle_cost
    ∧ (asyncUpdateData cfg s (mkTick t p)).1.last_cycle_duration = some (t - st)
    ∧ (asyncUpdateData cfg s (mkTick t p)).1.total_duration
        = s.total_duration + (t - st)
    ∧ (asyncUpdateData cfg s (mkTick t p)).1.cycle_energy
        = s.cycle_energy + (s.last_power + p) * ((t - t0) / 3600) / (2 * 1000) := by
  refine ⟨?_, ?_, ?_, ?_, ?_, ?_, ?_, ?_⟩ <;>
    simp [asyncUpdateData, mkTick, classify, calculateIntervalEnergy,
      calculateIntervalEnergy_state, hw, hp1, hp2, hlt, hst, hg]

lemma asyncUpdateData_reading_snapshot (cfg : Config) (s : CoordState)
    (inp : TickInput) (p : ℚ) (hp : inp.power = SourceState.reading p) :
    Except.map (fun d => (d.use_count, d.previous_cycle_energy,
        d.previous_cycle_cost, d.end_time, d.total_duration, d.cycle_energy))
        (asyncUpdateData cfg s inp).2
      = .ok ((asyncUpdateData cfg s inp).1.use_count,
             (asyncUpdateData cfg s inp).1.previous_cycle_energy,
             (asyncUpdateData cfg s inp).1.previous_cycle_cost,
             (asyncUpdateData cfg s inp).1.end_time,
             (asyncUpdateData cfg s inp).1.total_duration,
             (asyncUpdateData cfg s inp).1.cycle_energy) := by
  simp only [asyncUpdateData, hp]
  split_ifs <;> rfl

lemma runState_idle (cfg : Config) :
    ∀ (lows : List (ℚ × ℚ)) (s : CoordState),
      s.was_on = false →
      (∀ tp ∈ lows, ¬ cfg.start_watts < tp.2) →
      (runState cfg s (mkTicks lows)).was_on = false
      ∧ (runState cfg s (mkTicks lows)).use_count = s.use_count
      ∧ (runState cfg s (mkTicks lows)).start_time = s.start_time
      ∧ (runState cfg s (mkTicks lows)).last_cycle_end_time
          = s.last_cycle_end_time
      ∧ (runState cfg s (mkTicks lows)).total_duration = s.total_duration := by
  intro lows
  induction lows with
  | nil =>
      intro s hw _
      simp [mkTicks, runState, hw]
  | cons tp rest ih =>
      intro s hw hlow
      obtain ⟨t, p⟩ := tp
      have hstep := asyncUpdateData_idle cfg s t p hw
        (hlow (t, p) (List.mem_cons_self _ rest))
      obtain ⟨hs1, hs2, hs3, hs4, hs5, _, _⟩ := hstep
      have hrec := ih (asyncUpdateData cfg s (mkTick t p)).1 hs1
        (fun q hq => hlow q (List.mem_cons_of_mem _ hq))
      obtain ⟨hr1, hr2, hr3, hr4, hr5⟩ := hrec
      simp only [mkTicks, List.map_cons, runState] at hr1 hr2 hr3 hr4 hr5 ⊢
      exact ⟨hr1, hr2.trans hs2, hr3.trans hs3, hr4.trans hs4, hr5.trans hs5⟩

lemma runState_high (cfg : Config) :
    ∀ (highs : List (ℚ × ℚ)) (s : CoordState) (p0 t0 : ℚ),
      s.was_on = true → s.last_power = p0 → s.last_power_time = some t0 →
      (∀ tp ∈ highs, cfg.stop_watts < tp.2) →
      (runState cfg s (mkTicks highs)).was_on = true
      ∧ (runState cfg s (mkTicks highs)).use_count = s.use_count
      ∧ (runState cfg s (mkTicks highs)).start_time = s.start_time
      ∧ (runState cfg s (mkTicks highs)).last_cycle_end_time
          = s.last_cycle_end_time
      ∧ (runState cfg s (mkTicks highs)).total_duration = s.total_duration
      ∧ (runState cfg s (mkTicks highs)).cycle_energy
          = s.cycle_energy + trapSum p0 t0 highs
      ∧ (runState cfg s (mkTicks highs)).last_power = (lastPoint p0 t0 highs).1
      ∧ (runState cfg s (mkTicks highs)).last_power_time
          = some (lastPoint p0 t0 highs).2 := by
  intro highs
  induction highs with
  | nil =>
      intro s p0 t0 hw hlp hlpt _
      simp [mkTicks, runState, trapSum, lastPoint, hw, hlp, hlpt]
  | cons tp rest ih =>
      intro s p0 t0 hw hlp hlpt hhigh
      obtain ⟨t, p⟩ := tp
      have hstep := asyncUpdateData_high cfg s t p t0 hw
        (hhigh (t, p) (List.mem_cons_self _ rest)) hlpt
      obtain ⟨hs1, hs2, hs3, hs4, hs5, hs6, hs7, hs8⟩ := hstep
      have hrec := ih (asyncUpdateData cfg s (mkTick t p)).1 p t hs1 hs7 hs8
        (fun q hq => hhigh q (List.mem_cons_of_mem _ hq))
      obtain ⟨hr1, hr2, hr3, hr4, hr5, hr6, hr7, hr8⟩ := hrec
      simp only [mkTicks, List.map_cons,
        runState] at hr1 hr2 hr3 hr4 hr5 hr6 hr7 hr8 ⊢
      refine ⟨hr1, hr2.trans hs2, hr3.trans hs3, hr4.trans hs4, hr5.trans hs5,
        ?_, ?_, ?_⟩
      · rw [hr6, hs6, trapSum, hlp]
        ring
      · rw [hr7, lastPoint]
      · rw [hr8, lastPoint]

/-- Claim C2 counterexample: over the readings 0 W, 120 W, 40 W at
0 s, 3600 s, 7200 s (thresholds 100/50 W) the recorded
`previous_cycle_energy` is 0.06 kWh, while the trapezoidal sum
including the final partial interval straddling the Active→Idle instant
is 0.14 kWh (which is where `cycle_energy` ends up), so the claim's
"including the final partial interval" is false on the code. -/
theorem previous_cycle_energy_excludes_final :
    (runState cfgReminder3 initState
        (mkTicks [(0, 0), (3600, 120), (7200, 40)])).previous_cycle_energy
      = 3 / 50
    ∧ (runState cfgReminder3 initState
        (mkTicks [(0, 0), (3600, 120), (7200, 40)])).cycle_energy = 7 / 50
    ∧ trapSum 0 0 [(3600, 120), (7200, 40)] = 7 / 50
    ∧ ((3 : ℚ) / 50) ≠ 7 / 50 := by
  refine ⟨?_, ?_, by norm_num [trapSum], by norm_num⟩ <;>
    · norm_num [runState, asyncUpdateData, calculateIntervalEnergy, classify,
        getCurrentCostRate, initState, cfgReminder3, mkTicks, mkTick]
      split <;> simp_all <;> norm_num

/-- Claim C2 (amended): for every reading sequence that stays at or
below `start_watts`, then rises above `start_watts`, stays above
`stop_watts`, and finally falls to or below both thresholds, exactly one
Idle→Active→Idle cycle is recorded: `use_count` is 0 before the final
reading and exactly 1 after it; the final update records `end_time`,
snapshots `previous_cycle_energy := cycle_energy` and
`previous_cycle_cost := cycle_cost`, and adds the cycle duration to
`total_duration`.  `previous_cycle_energy` equals the trapezoidal sum of
the interior readings up to but excluding the final partial interval
straddling the Active→Idle instant; that final interval is added to
`cycle_energy` only after the snapshot. -/
theorem cycle_end_records (cfg : Config) (lows highs : List (ℚ × ℚ))
    (tl pl th ph tf pf : ℚ)
    (hlow : ∀ tp ∈ lows, ¬ cfg.start_watts < tp.2)
    (hl : ¬ cfg.start_watts < pl)
    (hh : cfg.start_watts < ph)
    (hhigh : ∀ tp ∈ highs, cfg.stop_watts < tp.2)
    (hf1 : ¬ cfg.start_watts < pf) (hf2 : ¬ cfg.stop_watts < pf) :
    (runState cfg initState
        (mkTicks (lows ++ (tl, pl) :: (th, ph) :: highs))).use_count = 0
    ∧ (runState cfg initState
        (mkTicks (lows ++ (tl, pl) :: (th, ph) :: highs))).was_on = true
    ∧ (runState cfg initState
        (mkTicks (lows ++ (tl, pl) :: (th, ph) :: highs))).cycle_energy
        = trapSum pl tl ((th, ph) :: highs)
    ∧ (asyncUpdateData cfg (runState cfg initState
        (mkTicks (lows ++ (tl, pl) :: (th, ph) :: highs)))
        (mkTick tf pf)).1.use_count = 1
    ∧ (asyncUpdateData cfg (runState cfg initState
        (mkTicks (lows ++ (tl, pl) :: (th, ph) :: highs)))
        (mkTick tf pf)).1.end_time = some tf
    ∧ (asyncUpdateData cfg (runState cfg initState
        (mkTicks (lows ++ (tl, pl) :: (th, ph) :: highs)))
        (mkTick tf pf)).1.previous_cycle_energy
        = trapSum pl tl ((th, ph) :: highs)
    ∧ (asyncUpdateData cfg (runState cfg initState
        (mkTicks (lows ++ (tl, pl) :: (th, ph) :: highs)))
        (mkTick tf pf)).1.previous_cycle_cost
        = (runState cfg initState
            (mkTicks (lows ++ (tl, pl) :: (th, ph) :: highs))).cycle_cost
    ∧ (asyncUpdateData cfg (runState cfg initState
        (mkTicks (lows ++ (tl, pl) :: (th, ph) :: highs)))
        (mkTick tf pf)).1.last_cycle_duration = some (tf - th)
    ∧ (asyncUpdateData cfg (runState cfg initState
        (mkTicks (lows ++ (tl, pl) :: (th, ph) :: highs)))
        (mkTick tf pf)).1.total_duration = tf - th
    ∧ (asyncUpdateData cfg (runState cfg initState
        (mkTicks (lows ++ (tl, pl) :: (th, ph) :: highs)))
        (mkTick tf pf)).1.cycle_energy
        = trapSum pl tl ((th, ph) :: highs)
          + ((lastPoint ph th highs).1 + pf)
            * ((tf - (lastPoint ph th highs).2) / 3600) / (2 * 1000)
    ∧ Except.map (fun d => (d.use_count, d.previous_cycle_energy,
          d.previous_cycle_cost, d.end_time, d.total_duration, d.cycle_energy))
        (asyncUpdateData cfg (runState cfg initState
          (mkTicks (lows ++ (tl, pl) :: (th, ph) :: highs)))
          (mkTick tf pf)).2
      = .ok (1, trapSum pl tl ((th, ph) :: highs),
             (runState cfg initState
               (mkTicks (lows ++ (tl, pl) :: (th, ph) :: highs))).cycle_cost,
             some tf, tf - th,
             trapSum pl tl ((th, ph) :: highs)
               + ((lastPoint ph th highs).1 + pf)
                 * ((tf - (lastPoint ph th highs).2) / 3600) / (2 * 1000)) := by
  have hsplit : mkTicks (lows ++ (tl, pl) :: (th, ph) :: highs)
      = mkTicks lows ++ mkTick tl pl :: mkTick th ph :: mkTicks highs := by
    simp [mkTicks]
  obtain ⟨hA1, hA2, hA3, hA4, hA5⟩ := runState_idle cfg lows initState rfl hlow
  obtain ⟨hB1, hB2, hB3, hB4, hB5, hB6, hB7⟩ :=
    asyncUpdateData_idle cfg (runState cfg initState (mkTicks lows)) tl pl hA1 hl
  obtain ⟨hC1, hC2, hC3, hC4, hC5, hC6, hC7, hC8⟩ :=
    asyncUpdateData_rising cfg
      (asyncUpdateData cfg (runState cfg initState (mkTicks lows))
        (mkTick tl pl)).1 th ph tl hB1 hh hB7
  obtain ⟨hD1, hD2, hD3, hD4, hD5, hD6, hD7, hD8⟩ :=
    runState_high cfg highs
      (asyncUpdateData cfg (asyncUpdateData cfg
        (runState cfg initState (mkTicks lows)) (mkTick tl pl)).1
        (mkTick th ph)).1 ph th hC1 hC7 hC8 hhigh
  have hS : runState cfg initState (mkTicks (lows ++ (tl, pl) :: (th, ph) :: highs))
      = runState cfg (asyncUpdateData cfg (asyncUpdateData cfg
          (runState cfg initState (mkTicks lows)) (mkTick tl pl)).1
          (mkTick th ph)).1 (mkTicks highs) := by
    rw [hsplit, runState_append cfg]
    rfl
  have hSuc : (runState cfg initState
      (mkTicks (lows ++ (tl, pl) :: (th, ph) :: highs))).use_count = 0 := by
    rw [hS, hD2, hC2, hB2, hA2]
    rfl
  have hSw : (runState cfg initState
      (mkTicks (lows ++ (tl, pl) :: (th, ph) :: highs))).was_on = true := by
    rw [hS]; exact hD1
  have hSst : (runState cfg initState
      (mkTicks (lows ++ (tl, pl) :: (th, ph) :: highs))).start_time = some th := by
    rw [hS, hD3, hC3]
  have hSlcet : (runState cfg initState
      (mkTicks (lows ++ (tl, pl) :: (th, ph) :: highs))).last_cycle_end_time
      = none := by
    rw [hS, hD4, hC4, hB4, hA4]
    rfl
  have hStd : (runState cfg initState
      (mkTicks (lows ++ (tl, pl) :: (th, ph) :: highs))).total_duration = 0 := by
    rw [hS, hD5, hC5, hB5, hA5]
    rfl
  have hSce : (runState cfg initState
      (mkTicks (lows ++ (tl, pl) :: (th, ph) :: highs))).cycle_energy
      = trapSum pl tl ((th, ph) :: highs) := by
    rw [hS, hD6, hC6, hB6]
    simp [trapSum]
  have hSlp : (runState cfg initState
      (mkTicks (lows ++ (tl, pl) :: (th, ph) :: highs))).last_power
      = (lastPoint ph th highs).1 := by
    rw [hS]; exact hD7
  have hSlpt : (runState cfg initState
      (mkTicks (lows ++ (tl, pl) :: (th, ph) :: highs))).last_power_time
      = some (lastPoint ph th highs).2 := by
    rw [hS]; exact hD8
  obtain ⟨hF1, hF2, hF3, hF4, hF5, hF6, hF7, hF8⟩ :=
    asyncUpdateData_falling cfg
      (runState cfg initState (mkTicks (lows ++ (tl, pl) :: (th, ph) :: highs)))
      tf pf (lastPoint ph th highs).2 th hSw hf1 hf2 hSlpt hSst
      (by rw [hSlcet]; simp)
  have h4 : (asyncUpdateData cfg (runState cfg initState
      (mkTicks (lows ++ (tl, pl) :: (th, ph) :: highs)))
      (mkTick tf pf)).1.use_count = 1 := by
    rw [hF2, hSuc]
  have h6 : (asyncUpdateData cfg (runState cfg initState
      (mkTicks (lows ++ (tl, pl) :: (th, ph) :: highs)))
      (mkTick tf pf)).1.previous_cycle_energy
      = trapSum pl tl ((th, ph) :: highs) := by
    rw [hF4, hSce]
  have h9 : (asyncUpdateData cfg (runState cfg initState
      (mkTicks (lows ++ (tl, pl) :: (th, ph) :: highs)))
      (mkTick tf pf)).1.total_duration = tf - th := by
    rw [hF7, hStd]; ring
  have h10 : (asyncUpdateData cfg (runState cfg initState
      (mkTicks (lows ++ (tl, pl) :: (th, ph) :: highs)))
      (mkTick tf pf)).1.cycle_energy
      = trapSum pl tl ((th, ph) :: highs)
        + ((lastPoint ph th highs).1 + pf)
          * ((tf - (lastPoint ph th highs).2) / 3600) / (2 * 1000) := by
    rw [hF8, hSce, hSlp]
  have hM := asyncUpdateData_reading_snapshot cfg
    (runState cfg initState (mkTicks (lows ++ (tl, pl) :: (th, ph) :: highs)))
    (mkTick tf pf) pf rfl
  rw [h4, h6, hF5, hF3, h9, h10] at hM
  exact ⟨hSuc, hSw, hSce, h4, hF3, h6, hF5, hF6, h9, h10, hM⟩

/-- Witness for `cycle_end_records`: readings 0 W at 0 s (idle), 120 W
at 3600 s (cycle start), 40 W at 7200 s (cycle end), thresholds
100/50 W: one cycle with snapshot `previous_cycle_energy` 0.06 kWh. -/
theorem cycle_end_records_witness :
    (asyncUpdateData cfgReminder3
        (runState cfgReminder3 initState
          (mkTicks ([] ++ (0, 0) :: (3600, 120) :: [])))
        (mkTick 7200 40)).1.use_count = 1
    ∧ (asyncUpdateData cfgReminder3
        (runState cfgReminder3 initState
          (mkTicks ([] ++ (0, 0) :: (3600, 120) :: [])))
        (mkTick 7200 40)).1.previous_cycle_energy
        = trapSum 0 0 ((3600, 120) :: []) := by
  have h := cycle_end_records cfgReminder3 [] [] 0 0 3600 120 7200 40
    (by simp) (by norm_num [cfgReminder3]) (by norm_num [cfgReminder3])
    (by simp) (by norm_num [cfgReminder3]) (by norm_num [cfgReminder3])
  exact ⟨h.2.2.2.1, h.2.2.2.2.2.1⟩

end SmartDumbAppliance
